import Mathlib

/-!
Verification development for the response-parsing core of the indian-rail-api
repository (train_api/utils.py).  The Python decoders are shallowly embedded
as total Lean functions over lists of characters.  Python strings become
`Str := List Char`; `str.split(sep)` (non-empty separator, non-overlapping,
left to right) becomes `pySplit`; list comprehensions dropping empty strings
become `dropEmpty`; `str.replace(x, "")` becomes a character filter;
`time.time() * 1000` is modelled by an explicit `now : Nat` parameter.
Guarded positional indexing (`lst[i]` under a length check) becomes
`List.getD` with a junk default, which agrees with the Python access on all
paths the guards allow.
-/

abbrev Str := List Char

/-- Opening curly brace character (written via its code point). -/
def lbrace : Char := Char.ofNat 123

/-- Closing curly brace character (written via its code point). -/
def rbrace : Char := Char.ofNat 125

/-- Whether the first list starts with the second (Python `str.startswith`). -/
def listStartsWith : Str → Str → Bool
  | _, [] => true
  | [], _ :: _ => false
  | c :: cs, d :: ds => c == d && listStartsWith cs ds

/-- Whether `pat` occurs as a contiguous substring of `s` (Python `pat in s`). -/
def containsSub : Str → Str → Bool
  | [], pat => pat.isEmpty
  | c :: rest, pat => listStartsWith (c :: rest) pat || containsSub rest pat

/-- Fuel-driven worker for `pySplit`; the fuel is structural so that concrete
inputs evaluate inside the kernel.  With fuel at least `s.length + 1` the
fallback branch is never reached. -/
def pySplitF (sep : Str) : Nat → Str → Str → List Str
  | 0, s, acc => [acc.reverse ++ s]
  | _ + 1, [], acc => [acc.reverse]
  | fuel + 1, c :: rest, acc =>
    if listStartsWith (c :: rest) sep && !sep.isEmpty then
      acc.reverse :: pySplitF sep fuel (rest.drop (sep.length - 1)) []
    else
      pySplitF sep fuel rest (c :: acc)

/-- Python `s.split(sep)` for a non-empty separator: non-overlapping
occurrences scanned left to right; always returns at least one segment. -/
def pySplit (sep s : Str) : List Str := pySplitF sep (s.length + 1) s []

/-- Python `[el for el in l if el]`: drop empty strings. -/
def dropEmpty (l : List Str) : List Str := l.filter (fun x => !x.isEmpty)

/-- Python `s.replace("~", "")`. -/
def stripTildes (s : Str) : Str := s.filter (fun c => !(c == '~'))

/-- Python `s.replace("^", "")`. -/
def removeCarets (s : Str) : Str := s.filter (fun c => !(c == '^'))

def tildeSep : Str := ['~']

def caretSep : Str := ['~', '^']

def ltSep : Str := ['<']

/-- The eight-tilde record sentinel of the upstream wire format. -/
def sentinel8 : Str := "~~~~~~~~".data

def errTryAgain : Str := "~~~~~Please try again after some time.".data

def errFromNotFound : Str := "~~~~~From station not found".data

def errToNotFound : Str := "~~~~~To station not found".data

def errTrainNotFound : Str := "~~~~~Train not found".data

def noDirectMsg : Str := "No direct trains found".data

def msgUnknownEmpty : Str := "Unknown error or empty response from API.".data

def msgNoTrainsParsed : Str := "No direct trains found or data format issue.".data

/-- Payload of a result envelope: either a diagnostic string (failure) or the
decoder's declared output value (success). -/
inductive EnvData (α : Type) where
  | err : Str → EnvData α
  | ok : α → EnvData α
deriving DecidableEq

/-- The uniform result envelope `(success, time_stamp, data)` produced by
every decoder. -/
structure Envelope (α : Type) where
  success : Bool
  time_stamp : Nat
  data : EnvData α
deriving DecidableEq

/-- One parsed train summary record (between_station_logic output element). -/
structure TrainSummary where
  train_no : Str
  train_name : Str
  source_stn_name : Str
  source_stn_code : Str
  dstn_stn_name : Str
  dstn_stn_code : Str
  from_stn_name : Str
  from_stn_code : Str
  to_stn_name : Str
  to_stn_code : Str
  from_time : Str
  to_time : Str
  travel_time : Str
  running_days_str : Str
  running_days : List Nat
deriving DecidableEq

/-- Wrapper object with the single field train_base (utils.py line 111). -/
structure TrainBase where
  train_base : TrainSummary
deriving DecidableEq

/-- Python lines 102-108: map Y to 1 and any other character to 0, then keep
the parsed list only when it has exactly 7 entries. -/
def parseRunningDaysList (raw : Str) : List Nat :=
  let parsed := raw.map (fun c => if c == 'Y' then (1 : Nat) else 0)
  if parsed.length == 7 then parsed else []

/-- Inner part of the "No direct trains found" check (utils.py lines 27-35),
applied to the first eight-tilde segment. -/
def noDirectInner (first : Str) : Bool :=
  let parts := pySplit tildeSep first
  decide (parts.length > 5) && ((pySplit ltSep (parts.getD 5 [])).headD [] == noDirectMsg)

/-- Membership of the first segment in the three error sentinels checked by
between_station_logic (utils.py lines 50-58). -/
def isBetweenErr (first : Str) : Bool :=
  first == errTryAgain || first == errFromNotFound || first == errToNotFound

/-- One iteration of the segment loop of between_station_logic (utils.py
lines 73-112): a segment yields a record exactly when splitting on the
tilde-caret marker gives 2 parts and the second part has at least 14
non-empty tilde fields. -/
def parseBetweenSegment (seg : Str) : Option TrainBase :=
  let parts := pySplit caretSep seg
  if parts.length = 2 then
    let td := dropEmpty (pySplit tildeSep (parts.getD 1 []))
    if 14 ≤ td.length then
      some ⟨⟨td.getD 0 [], td.getD 1 [], td.getD 2 [], td.getD 3 [], td.getD 4 [],
        td.getD 5 [], td.getD 6 [], td.getD 7 [], td.getD 8 [], td.getD 9 [],
        td.getD 10 [], td.getD 11 [], td.getD 12 [], td.getD 13 [],
        parseRunningDaysList (td.getD 13 [])⟩⟩
    else none
  else none

/-- Embedding of between_station_logic (utils.py lines 12-138).  The branch
at lines 114-118 is dead code in the source: at that point `retval` is the
empty dict, so `retval.get("success", True)` is `True` and only the branch
at lines 119-123 can fire; the embedding keeps exactly the reachable
branches.  The surrounding try/except can only produce the generic failure
envelope, and no guarded access in the body can raise. -/
def between_station_logic (now : Nat) (s : Str) : Envelope (List TrainBase) :=
  let first := (pySplit sentinel8 s).headD []
  if containsSub s noDirectMsg && noDirectInner first then
    ⟨false, now, EnvData.err noDirectMsg⟩
  else if isBetweenErr first then
    ⟨false, now, EnvData.err (stripTildes first)⟩
  else
    let segs := dropEmpty (pySplit sentinel8 s)
    if segs = [] then
      ⟨false, now, EnvData.err msgUnknownEmpty⟩
    else
      let arr := segs.filterMap parseBetweenSegment
      if arr = [] then
        ⟨false, now, EnvData.err msgNoTrainsParsed⟩
      else
        ⟨true, now, EnvData.ok arr⟩

/-- Parsed train detail record (check_train_logic output). -/
structure TrainDetail where
  train_no : Str
  train_name : Str
  from_stn_name : Str
  from_stn_code : Str
  to_stn_name : Str
  to_stn_code : Str
  from_time : Str
  to_time : Str
  travel_time : Str
  running_days_str : Str
  running_days : List Nat
  type : Str
  train_id : Str
  distance_from_to : Str
  average_speed : Str
deriving DecidableEq

def msgInvalidTrainFormat : Str := "Invalid data format for train details.".data

def msgNotEnoughPart1 : Str := "Not enough data in the first part of train details.".data

def msgNotEnoughPart2 : Str := "Not enough data in the second part of train details.".data

/-- Python `s.isdigit()` restricted to ASCII decimal digits (the inputs of
interest are ASCII; Python would additionally accept non-ASCII digits). -/
def pyIsDigit (s : Str) : Bool := !s.isEmpty && s.all (fun c => c.isDigit)

/-- Heuristic repair of the first field list in check_train_logic (utils.py
lines 348-358): when the second field is longer than 6 characters, the first
field is popped if it is a lone caret, or if it is itself longer than 6
characters and not purely numeric. -/
def ctRepair (a : List Str) : List Str :=
  if a ≠ [] ∧ a.length > 1 ∧ (a.getD 1 []).length > 6 then
    if a.getD 0 [] = ['^'] then a.drop 1
    else if (a.getD 0 []).length > 6 ∧ a.length > 1 ∧ pyIsDigit (a.getD 0 []) = false then
      a.drop 1
    else a
  else a

/-- Membership of the first segment in the two error sentinels checked by
check_train_logic (utils.py lines 322-326). -/
def isCheckTrainErr (first : Str) : Bool :=
  first == errTryAgain || first == errTrainNotFound

/-- Embedding of check_train_logic (utils.py lines 315-427).  All positional
accesses in the source are guarded by the length checks kept here, so the
IndexError handler is unreachable and the embedding keeps only the reachable
branches. -/
def check_train_logic (now : Nat) (s : Str) : Envelope TrainDetail :=
  let segs := pySplit sentinel8 s
  let first := segs.headD []
  if isCheckTrainErr first then
    ⟨false, now, EnvData.err (stripTildes first)⟩
  else if segs.length < 2 then
    ⟨false, now, EnvData.err msgInvalidTrainFormat⟩
  else
    let p1 := ctRepair (dropEmpty (pySplit tildeSep (segs.getD 0 [])))
    if p1.length < 15 then
      ⟨false, now, EnvData.err msgNotEnoughPart1⟩
    else
      let p2 := dropEmpty (pySplit tildeSep (segs.getD 1 []))
      if p2.length < 20 then
        ⟨false, now, EnvData.err msgNotEnoughPart2⟩
      else
        ⟨true, now, EnvData.ok ⟨removeCarets (p1.getD 0 []), p1.getD 1 [],
          p1.getD 2 [], p1.getD 3 [], p1.getD 4 [], p1.getD 5 [],
          p1.getD 10 [], p1.getD 11 [], p1.getD 12 [],
          p1.getD 13 [], parseRunningDaysList (p1.getD 13 []),
          p2.getD 11 [], p2.getD 12 [], p2.getD 18 [], p2.getD 19 []⟩⟩

/-- One parsed route stop (get_route_logic output element). -/
structure RouteStop where
  source_stn_name : Str
  source_stn_code : Str
  arrive : Str
  depart : Str
  distance : Str
  day : Str
  zone : Str
deriving DecidableEq

def msgNoRouteData : Str := "No route data found in response.".data

def msgRouteParseFail : Str := "Could not parse route details from segments.".data

/-- One iteration of the segment loop of get_route_logic (utils.py lines
191-204): a segment is kept exactly when more than 9 non-empty tilde fields
remain. -/
def parseRouteSegment (seg : Str) : Option RouteStop :=
  let d := dropEmpty (pySplit tildeSep seg)
  if d.length > 9 then
    some ⟨d.getD 2 [], d.getD 1 [], d.getD 3 [], d.getD 4 [], d.getD 6 [],
      d.getD 7 [], d.getD 9 []⟩
  else none

/-- Embedding of get_route_logic (utils.py lines 176-223). -/
def get_route_logic (now : Nat) (s : Str) : Envelope (List RouteStop) :=
  let segs := dropEmpty (pySplit caretSep s)
  if segs = [] then
    ⟨false, now, EnvData.err msgNoRouteData⟩
  else
    let arr := segs.filterMap parseRouteSegment
    if arr = [] then
      ⟨false, now, EnvData.err msgRouteParseFail⟩
    else
      ⟨true, now, EnvData.ok arr⟩

/-- Proleptic-Gregorian leap-year test, as used by Python datetime. -/
def isLeapYear (y : Nat) : Bool := y % 4 == 0 && (y % 100 != 0 || y % 400 == 0)

/-- Number of days in a month of a given year (proleptic Gregorian). -/
def daysInMonth (m y : Nat) : Nat :=
  if m == 2 then (if isLeapYear y then 29 else 28)
  else if m == 4 || m == 6 || m == 9 || m == 11 then 30
  else 31

/-- Days in the months strictly before month `m` of year `y`. -/
def daysBeforeMonth (m y : Nat) : Nat :=
  (List.range (m - 1)).foldl (fun acc i => acc + daysInMonth (i + 1) y) 0

/-- Proleptic-Gregorian ordinal of a date, with 0001-01-01 mapped to 1
(Python date.toordinal). -/
def toOrdinal (d m y : Nat) : Nat :=
  365 * (y - 1) + (y - 1) / 4 - (y - 1) / 100 + (y - 1) / 400 + daysBeforeMonth m y + d

/-- Weekday with Monday as 0 (Python date.weekday); ordinal 1, the first of
January of year 1, is a Monday in the proleptic Gregorian calendar. -/
def weekdayMon0 (d m y : Nat) : Nat := (toOrdinal d m y - 1) % 7

/-- Validity of calendar components as accepted by Python
datetime(year, month, day): year 1-9999, month 1-12, day within the month. -/
def validDate (d m y : Int) : Bool :=
  decide (1 ≤ y) && decide (y ≤ 9999) && decide (1 ≤ m) && decide (m ≤ 12) &&
    decide (1 ≤ d) && decide (d ≤ (daysInMonth m.toNat y.toNat : Int))

/-- Embedding of get_day_on_date_logic (utils.py lines 141-174): on a valid
date, remap the Monday-as-0 weekday by adding 5 modulo 7; an invalid date
raises ValueError in the source and returns -1. -/
def get_day_on_date_logic (d m y : Int) : Int :=
  if validDate d m y then
    ((weekdayMon0 d.toNat m.toNat y.toNat + 5) % 7 : Nat)
  else
    -1

/-- Python whitespace for `str.strip()` (ASCII range). -/
def isPyWs (c : Char) : Bool :=
  c == ' ' || c == '\t' || c == '\n' || c == '\r' || c == Char.ofNat 11 || c == Char.ofNat 12

/-- Python `s.strip()`: drop whitespace from both ends. -/
def pyStrip (s : Str) : Str :=
  ((s.dropWhile isPyWs).reverse.dropWhile isPyWs).reverse

/-- View of one DOM node matched by the CSS selector .name, together with
the two pieces of surrounding markup live_station_logic reads: the stripped
text of the node itself, the stripped text of its next sibling div (if any),
and the stripped text of the next sibling td of its enclosing td (if both
exist).  This abstracts the BeautifulSoup collaborator: lines 231-263 of
utils.py touch the document only through these three accessors. -/
structure NameNode where
  text : Str
  nextDivText : Option Str
  statusText : Option Str
deriving DecidableEq

/-- One scraped live-departures row (live_station_logic output element). -/
structure LiveStationEntry where
  train_no : Str
  train_name : Str
  source_stn_name : Str
  dstn_stn_name : Str
  time_at : Str
  detail : Str
deriving DecidableEq

def arrowSep : Str := ['→']

/-- Body of the per-node loop of live_station_logic (utils.py lines
231-265): fixed-width slicing of the name text, arrow split of the sibling
div text, fixed-width slicing of the status cell text; missing siblings or
ancestors yield empty strings. -/
def processNameNode (n : NameNode) : LiveStationEntry :=
  let sd := match n.nextDivText with
    | some t =>
      let parts := pySplit arrowSep t
      (pyStrip (parts.headD []),
        if decide (parts.length > 1) then pyStrip (parts.getD 1 []) else [])
    | none => ([], [])
  let st := match n.statusText with
    | some t => (t.take 5, pyStrip (t.drop 5))
    | none => ([], [])
  ⟨n.text.take 5, pyStrip (n.text.drop 5), sd.1, sd.2, st.1, st.2⟩

/-- Embedding of live_station_logic (utils.py lines 225-277): maps the
matched nodes in document order and always succeeds. -/
def live_station_logic (now : Nat) (nodes : List NameNode) : Envelope (List LiveStationEntry) :=
  ⟨true, now, EnvData.ok (nodes.map processNameNode)⟩

def msgPnrNotFound : Str := "Could not find PNR data in the page.".data

def msgPnrParseFail : Str := "Failed to parse PNR data from page.".data

def dataWord : Str := "data".data

/-- Whitespace class of the regex escape backslash-s used in
pnr_status_logic's pattern. -/
def isReWs (c : Char) : Bool :=
  c == ' ' || c == '\t' || c == '\n' || c == '\r' || c == Char.ofNat 11 || c == Char.ofNat 12

/-- Lazy body match after the opening brace: the body consists of the
characters before the first closing brace that is immediately followed by a
semicolon, mirroring the non-greedy dot-star of the pattern under DOTALL. -/
def matchBodyAt : Str → Option Str
  | [] => none
  | c :: rest =>
    if c == rbrace && (match rest with | ';' :: _ => true | _ => false) then
      some []
    else
      (matchBodyAt rest).map (fun b => c :: b)

/-- Attempt to match the pattern of pnr_status_logic at the start of `s`,
returning capture group 1 (the brace-delimited body including its braces). -/
def matchDataAt (s : Str) : Option Str :=
  if listStartsWith s dataWord then
    let r1 := (s.drop 4).dropWhile isReWs
    match r1 with
    | '=' :: r2 =>
      let r3 := r2.dropWhile isReWs
      match r3 with
      | c :: r4 =>
        if c == lbrace then
          (matchBodyAt r4).map (fun b => lbrace :: (b ++ [rbrace]))
        else none
      | [] => none
    | _ => none
  else none

/-- Leftmost-match search for the pattern of pnr_status_logic, modelling
re.search with the DOTALL flag. -/
def findDataMatch : Str → Option Str
  | [] => none
  | c :: rest =>
    match matchDataAt (c :: rest) with
    | some g => some g
    | none => findDataMatch rest

/-- Generic JSON value.  Number and string payloads keep their source
lexemes: pnr_status_logic passes the parsed value through verbatim, so only
the success or failure of parsing and the value identity matter here. -/
inductive JVal : Type where
  | jnull : JVal
  | jbool : Bool → JVal
  | jnum : Str → JVal
  | jstr : Str → JVal
  | jarr : List JVal → JVal
  | jobj : List (Str × JVal) → JVal

/-- JSON whitespace (space, tab, newline, carriage return). -/
def isJsonWs (c : Char) : Bool :=
  c == ' ' || c == '\t' || c == '\n' || c == '\r'

def skipWs (s : Str) : Str := s.dropWhile isJsonWs

/-- Hexadecimal digit test for JSON unicode escapes. -/
def isHexDig (c : Char) : Bool :=
  c.isDigit || ('a' ≤ c && c ≤ 'f') || ('A' ≤ c && c ≤ 'F')

/-- Parse the contents of a JSON string after the opening quote; returns the
raw characters of the body and the rest after the closing quote. -/
def jpString : Str → Option (Str × Str)
  | [] => none
  | c :: rest =>
    if c == '"' then some ([], rest)
    else if c == '\\' then
      match rest with
      | [] => none
      | e :: rest2 =>
        if e == 'u' then
          match rest2 with
          | h1 :: h2 :: h3 :: h4 :: rest3 =>
            if isHexDig h1 && isHexDig h2 && isHexDig h3 && isHexDig h4 then
              (jpString rest3).map (fun p => ('\\' :: 'u' :: h1 :: h2 :: h3 :: h4 :: p.1, p.2))
            else none
          | _ => none
        else if e == '"' || e == '\\' || e == '/' || e == 'b' || e == 'f' ||
            e == 'n' || e == 'r' || e == 't' then
          (jpString rest2).map (fun p => ('\\' :: e :: p.1, p.2))
        else none
    else (jpString rest).map (fun p => (c :: p.1, p.2))

/-- Parse a JSON number token; returns its lexeme and the rest. -/
def jpNumber (s : Str) : Option (Str × Str) :=
  let sg := match s with
    | c :: r => if c == '-' then (['-'], r) else (([] : Str), s)
    | [] => ([], s)
  match sg.2 with
  | [] => none
  | c :: r =>
    if !c.isDigit then none
    else
      let ip : Str × Str :=
        if c == '0' then ([c], r)
        else (c :: r.takeWhile Char.isDigit, r.dropWhile Char.isDigit)
      let fp : Str × Str := match ip.2 with
        | '.' :: r2 =>
          let ds := r2.takeWhile Char.isDigit
          if ds.isEmpty then ([], ip.2)
          else ('.' :: ds, r2.dropWhile Char.isDigit)
        | _ => ([], ip.2)
      let ep : Str × Str := match fp.2 with
        | e :: r2 =>
          if e == 'e' || e == 'E' then
            let sg2 : Str × Str := match r2 with
              | c2 :: r4 => if c2 == '+' || c2 == '-' then ([c2], r4) else ([], r2)
              | [] => ([], r2)
            let ds := sg2.2.takeWhile Char.isDigit
            if ds.isEmpty then ([], fp.2)
            else (e :: (sg2.1 ++ ds), sg2.2.dropWhile Char.isDigit)
          else ([], fp.2)
        | [] => ([], fp.2)
      some (sg.1 ++ ip.1 ++ fp.1 ++ ep.1, ep.2)

mutual

/-- Fuel-driven JSON value parse (model of Python json.loads). -/
def jpVal : Nat → Str → Option (JVal × Str)
  | 0, _ => none
  | fuel + 1, s =>
    match skipWs s with
    | [] => none
    | c :: rest =>
      if c == 'n' then
        (if listStartsWith rest ['u', 'l', 'l'] then some (JVal.jnull, rest.drop 3) else none)
      else if c == 't' then
        (if listStartsWith rest ['r', 'u', 'e'] then some (JVal.jbool true, rest.drop 3) else none)
      else if c == 'f' then
        (if listStartsWith rest ['a', 'l', 's', 'e'] then some (JVal.jbool false, rest.drop 4) else none)
      else if c == '"' then
        (jpString rest).map (fun p => (JVal.jstr p.1, p.2))
      else if c == lbrace then jpObj fuel (skipWs rest) []
      else if c == '[' then jpArr fuel (skipWs rest) []
      else (jpNumber (c :: rest)).map (fun p => (JVal.jnum p.1, p.2))

/-- Fuel-driven JSON array elements parse (after the opening bracket). -/
def jpArr : Nat → Str → List JVal → Option (JVal × Str)
  | 0, _, _ => none
  | fuel + 1, s, acc =>
    match s with
    | ']' :: r => if acc.isEmpty then some (JVal.jarr [], r) else none
    | _ =>
      match jpVal fuel s with
      | none => none
      | some (v, r) =>
        match skipWs r with
        | ',' :: r2 => jpArr fuel (skipWs r2) (v :: acc)
        | ']' :: r2 => some (JVal.jarr (v :: acc).reverse, r2)
        | _ => none

/-- Fuel-driven JSON object members parse (after the opening brace). -/
def jpObj : Nat → Str → List (Str × JVal) → Option (JVal × Str)
  | 0, _, _ => none
  | fuel + 1, s, acc =>
    match s with
    | [] => none
    | c :: r =>
      if c == rbrace then (if acc.isEmpty then some (JVal.jobj [], r) else none)
      else if c == '"' then
        match jpString r with
        | none => none
        | some (key, r2) =>
          match skipWs r2 with
          | ':' :: r3 =>
            match jpVal fuel (skipWs r3) with
            | none => none
            | some (v, r4) =>
              match skipWs r4 with
              | [] => none
              | d :: r5 =>
                if d == ',' then
                  match skipWs r5 with
                  | '"' :: r6 => jpObj fuel ('"' :: r6) ((key, v) :: acc)
                  | _ => none
                else if d == rbrace then some (JVal.jobj ((key, v) :: acc).reverse, r5)
                else none
          | _ => none
      else none

end

/-- Model of Python json.loads: parse one JSON value and require only
whitespace after it. -/
def jsonParse (s : Str) : Option JVal :=
  match jpVal (2 * s.length + 4) s with
  | some (v, r) => if (skipWs r).isEmpty then some v else none
  | none => none

/-- Embedding of pnr_status_logic (utils.py lines 279-313): regex search for
the embedded assignment, then JSON parse of capture group 1; a parse failure
is converted to a fixed diagnostic instead of propagating. -/
def pnr_status_logic (now : Nat) (html : Str) : Envelope JVal :=
  match findDataMatch html with
  | none => ⟨false, now, EnvData.err msgPnrNotFound⟩
  | some captured =>
    match jsonParse captured with
    | some v => ⟨true, now, EnvData.ok v⟩
    | none => ⟨false, now, EnvData.err msgPnrParseFail⟩

/-- Reading of the specification phrase strip the leading caret: remove one
caret character from the front of the string if present.  Used to compare
the specification's description of the train number field against the
source, which removes every caret. -/
def stripLeadingCaret (s : Str) : Str :=
  match s with
  | c :: r => if c == '^' then r else c :: r
  | [] => []

/-- Concrete check_train_logic input whose first field contains an interior
caret: two sentinel segments, the first with 15 non-empty tilde fields, the
second with 20. -/
def c4input : Str :=
  "1^2~EXP~A~B~C~D~f6~f7~f8~f9~10:00~11:00~01:00~YNNYYNY~x14".data ++ sentinel8 ++
    "p0~p1~p2~p3~p4~p5~p6~p7~p8~p9~p10~p11~p12~p13~p14~p15~p16~p17~p18~p19".data

/-- Concrete well-formed between_station_logic segment used by witnesses:
14 non-empty tilde fields after the tilde-caret marker. -/
def c3seg : Str := "h~^t0~t1~t2~t3~t4~t5~t6~t7~t8~t9~t10~t11~t12~YNNYYNY".data

/-- The record parseBetweenSegment extracts from `c3seg`. -/
def c3tb : TrainBase :=
  ⟨⟨"t0".data, "t1".data, "t2".data, "t3".data, "t4".data, "t5".data, "t6".data,
    "t7".data, "t8".data, "t9".data, "t10".data, "t11".data, "t12".data,
    "YNNYYNY".data, [1, 0, 0, 1, 1, 0, 1]⟩⟩

def pnrHtmlOk : Str :=
  "junk data = ".data ++ [lbrace] ++ "\"a\":1".data ++ [rbrace] ++ "; more".data

def pnrHtmlBad : Str :=
  "data = ".data ++ [lbrace] ++ "oops".data ++ [rbrace] ++ ";".data

def pnrHtmlNone : Str := "no assignment here".data

/-- TrainDetail record produced by check_train_logic on `c4input`. -/
def c4detail : TrainDetail :=
  ⟨"12".data, "EXP".data, "A".data, "B".data, "C".data, "D".data,
    "10:00".data, "11:00".data, "01:00".data, "YNNYYNY".data, [1, 0, 0, 1, 1, 0, 1],
    "p11".data, "p12".data, "p18".data, "p19".data⟩

/-- Well-formedness invariant of a decoder result: the timestamp is the one
supplied at the call, success pairs exactly with a payload, and failure
pairs exactly with a diagnostic string. -/
def envelopeSound {α : Type} (now : Nat) (e : Envelope α) : Prop :=
  e.time_stamp = now ∧
    (e.success = false ↔ ∃ m, e.data = EnvData.err m) ∧
    (e.success = true ↔ ∃ v, e.data = EnvData.ok v)

theorem envelopeSound_err {α : Type} (now : Nat) (m : Str) :
    envelopeSound now (⟨false, now, EnvData.err m⟩ : Envelope α) := by
  refine ⟨rfl, ?_, ?_⟩ <;> simp [envelopeSound]

theorem envelopeSound_ok {α : Type} (now : Nat) (v : α) :
    envelopeSound now (⟨true, now, EnvData.ok v⟩ : Envelope α) := by
  refine ⟨rfl, ?_, ?_⟩ <;> simp [envelopeSound]





/-- C1: whenever the first eight-tilde segment of the raw input is exactly
one of the known upstream error sentinels, between_station_logic
(respectively check_train_logic for its two sentinels) returns a failure
envelope whose data is that segment with every tilde character removed. -/
theorem c1_error_sentinels (now : Nat) (s t : Str) :
    ((pySplit sentinel8 s).headD [] = errTryAgain ∨
      (pySplit sentinel8 s).headD [] = errFromNotFound ∨
      (pySplit sentinel8 s).headD [] = errToNotFound →
      between_station_logic now s =
        ⟨false, now, EnvData.err (stripTildes ((pySplit sentinel8 s).headD []))⟩) ∧
    ((pySplit sentinel8 t).headD [] = errTryAgain ∨
      (pySplit sentinel8 t).headD [] = errTrainNotFound →
      check_train_logic now t =
        ⟨false, now, EnvData.err (stripTildes ((pySplit sentinel8 t).headD []))⟩) := by
  constructor
  · intro h
    have hn : noDirectInner ((pySplit sentinel8 s).headD []) = false := by
      rcases h with h | h | h <;> rw [h] <;> decide
    have hb : isBetweenErr ((pySplit sentinel8 s).headD []) = true := by
      rcases h with h | h | h <;> rw [h] <;> decide
    simp only [between_station_logic]
    rw [hn, hb]
    simp
  · intro h
    have hc : isCheckTrainErr ((pySplit sentinel8 t).headD []) = true := by
      rcases h with h | h <;> rw [h] <;> decide
    simp only [check_train_logic]
    rw [hc]
    simp

/-- C2: between_station_logic splits the text on the eight-tilde sentinel
with empty segments dropped; a segment contributes a record exactly when the
tilde-caret split yields 2 parts whose second part has at least 14 non-empty
tilde fields; fields 0 through 12 map positionally onto the named summary
fields, each record is wrapped in the single-field train_base object, and a
successful result is exactly the list of contributed records in order. -/
theorem c2_between_record_extraction (now : Nat) (s : Str) :
    (∀ r, (between_station_logic now s).data = EnvData.ok r →
      r = (dropEmpty (pySplit sentinel8 s)).filterMap parseBetweenSegment) ∧
    (∀ seg, (parseBetweenSegment seg).isSome = true ↔
      ((pySplit caretSep seg).length = 2 ∧
        14 ≤ (dropEmpty (pySplit tildeSep ((pySplit caretSep seg).getD 1 []))).length)) ∧
    (∀ seg tb, parseBetweenSegment seg = some tb →
      tb = (let td := dropEmpty (pySplit tildeSep ((pySplit caretSep seg).getD 1 []))
            ⟨⟨td.getD 0 [], td.getD 1 [], td.getD 2 [], td.getD 3 [], td.getD 4 [],
              td.getD 5 [], td.getD 6 [], td.getD 7 [], td.getD 8 [], td.getD 9 [],
              td.getD 10 [], td.getD 11 [], td.getD 12 [], td.getD 13 [],
              parseRunningDaysList (td.getD 13 [])⟩⟩)) := by
  refine ⟨?_, ?_, ?_⟩
  · intro r h
    simp only [between_station_logic] at h
    split at h
    · simp at h
    split at h
    · simp at h
    split at h
    · simp at h
    split at h
    · simp at h
    · simp only [EnvData.ok.injEq] at h
      exact h.symm
  · intro seg
    constructor
    · intro hs
      simp only [parseBetweenSegment] at hs
      split at hs
      · split at hs
        · rename_i hp ht
          exact ⟨hp, ht⟩
        · simp at hs
      · simp at hs
    · rintro ⟨hp, ht⟩
      simp only [parseBetweenSegment]
      rw [if_pos hp, if_pos ht]
      rfl
  · intro seg tb h
    simp only [parseBetweenSegment] at h
    split at h
    · split at h
      · rw [Option.some.injEq] at h
        exact h.symm
      · exact absurd h (by simp)
    · exact absurd h (by simp)

theorem c2_between_record_extraction_witness :
    [c3tb] = (dropEmpty (pySplit sentinel8 c3seg)).filterMap parseBetweenSegment ∧
    ((pySplit caretSep c3seg).length = 2 ∧
      14 ≤ (dropEmpty (pySplit tildeSep ((pySplit caretSep c3seg).getD 1 []))).length) ∧
    c3tb = (let td := dropEmpty (pySplit tildeSep ((pySplit caretSep c3seg).getD 1 []))
            ⟨⟨td.getD 0 [], td.getD 1 [], td.getD 2 [], td.getD 3 [], td.getD 4 [],
              td.getD 5 [], td.getD 6 [], td.getD 7 [], td.getD 8 [], td.getD 9 [],
              td.getD 10 [], td.getD 11 [], td.getD 12 [], td.getD 13 [],
              parseRunningDaysList (td.getD 13 [])⟩⟩) := by
  have h := c2_between_record_extraction 0 c3seg
  exact ⟨h.1 [c3tb] (by decide), (h.2.1 c3seg).mp (by decide), h.2.2 c3seg c3tb (by decide)⟩

/-- C3: running_days is derived from field 13 by mapping the character Y to
1 and everything else to 0, kept only when exactly 7 characters long, while
running_days_str always retains the raw field; this invariant holds for the
records of both between_station_logic and check_train_logic. -/
theorem c3_running_days (now : Nat) (raw seg tseg : Str) :
    (raw.length = 7 →
      parseRunningDaysList raw = raw.map (fun c => if c == 'Y' then 1 else 0)) ∧
    (raw.length ≠ 7 → parseRunningDaysList raw = []) ∧
    ((parseRunningDaysList raw).length = 7 ↔ raw.length = 7) ∧
    (∀ tb, parseBetweenSegment seg = some tb →
      tb.train_base.running_days = parseRunningDaysList tb.train_base.running_days_str ∧
      tb.train_base.running_days_str =
        (dropEmpty (pySplit tildeSep ((pySplit caretSep seg).getD 1 []))).getD 13 []) ∧
    (∀ d, (check_train_logic now tseg).data = EnvData.ok d →
      d.running_days = parseRunningDaysList d.running_days_str) ∧
    parseRunningDaysList "YNNYYNY".data = [1, 0, 0, 1, 1, 0, 1] ∧
    parseRunningDaysList "YN".data = [] := by
  refine ⟨?_, ?_, ?_, ?_, ?_, by decide, by decide⟩
  · intro h
    simp [parseRunningDaysList, h]
  · intro h
    simp [parseRunningDaysList, h]
  · constructor
    · intro h
      by_contra hne
      rw [(by simp [parseRunningDaysList, hne] : parseRunningDaysList raw = [])] at h
      simp at h
    · intro h
      simp [parseRunningDaysList, h]
  · intro tb h
    simp only [parseBetweenSegment] at h
    split at h
    · split at h
      · rw [Option.some.injEq] at h
        rw [← h]
        exact ⟨rfl, rfl⟩
      · exact absurd h (by simp)
    · exact absurd h (by simp)
  · intro d h
    simp only [check_train_logic] at h
    split at h
    · simp at h
    split at h
    · simp at h
    split at h
    · simp at h
    split at h
    · simp at h
    · simp only [EnvData.ok.injEq] at h
      rw [← h]

theorem c3_running_days_witness :
    parseRunningDaysList "NYYYYYN".data = [0, 1, 1, 1, 1, 1, 0] ∧
    parseRunningDaysList "YNY".data = [] ∧
    c3tb.train_base.running_days = parseRunningDaysList c3tb.train_base.running_days_str := by
  have h1 := (c3_running_days 0 ("NYYYYYN".data) [] []).1 (by decide)
  have h2 := (c3_running_days 0 ("YNY".data) [] []).2.1 (by decide)
  have h3 := ((c3_running_days 0 [] c3seg []).2.2.2.1 c3tb (by decide)).1
  exact ⟨by rw [h1]; decide, h2, h3⟩

/-- C8: zero usable records is a failure for the delimited decoder — in
particular between_station_logic on the empty string returns a failure
envelope rather than raising — while live_station_logic on a document with
no matched name nodes succeeds with the empty list. -/
theorem c8_empty_result_policy (now : Nat) (s : Str) :
    ((dropEmpty (pySplit sentinel8 s)).filterMap parseBetweenSegment = [] →
      (between_station_logic now s).success = false) ∧
    between_station_logic now [] = ⟨false, now, EnvData.err msgUnknownEmpty⟩ ∧
    live_station_logic now [] = ⟨true, now, EnvData.ok []⟩ := by
  refine ⟨?_, rfl, rfl⟩
  intro h
  simp only [between_station_logic]
  by_cases h1 : (containsSub s noDirectMsg && noDirectInner ((pySplit sentinel8 s).headD [])) = true
  · rw [if_pos h1]
  · rw [if_neg h1]
    by_cases h2 : isBetweenErr ((pySplit sentinel8 s).headD []) = true
    · rw [if_pos h2]
    · rw [if_neg h2]
      by_cases h3 : dropEmpty (pySplit sentinel8 s) = []
      · rw [if_pos h3]
      · rw [if_neg h3, if_pos h]

theorem c8_empty_result_policy_witness :
    (between_station_logic 0 "~~~~~~~~".data).success = false ∧
    between_station_logic 0 [] = ⟨false, 0, EnvData.err msgUnknownEmpty⟩ ∧
    live_station_logic 0 [] = ⟨true, 0, EnvData.ok []⟩ := by
  have h := c8_empty_result_policy 0 ("~~~~~~~~".data)
  have h0 := c8_empty_result_policy 0 []
  exact ⟨h.1 (by decide), by rw [h0.2.1], h0.2.2⟩

/-- C9: every decoder is boundary-safe: it returns an envelope carrying the
call timestamp whose data is a diagnostic string exactly when success is
false and the decoder's declared payload exactly when success is true. -/
theorem c9_boundary_safety (now : Nat) (s t u h : Str) (nodes : List NameNode) :
    envelopeSound now (between_station_logic now s) ∧
    envelopeSound now (check_train_logic now t) ∧
    envelopeSound now (get_route_logic now u) ∧
    envelopeSound now (live_station_logic now nodes) ∧
    envelopeSound now (pnr_status_logic now h) := by
  refine ⟨?_, ?_, ?_, ?_, ?_⟩
  · simp only [between_station_logic]
    repeat' split
    all_goals first
      | exact envelopeSound_err _ _
      | exact envelopeSound_ok _ _
  · simp only [check_train_logic]
    repeat' split
    all_goals first
      | exact envelopeSound_err _ _
      | exact envelopeSound_ok _ _
  · simp only [get_route_logic]
    repeat' split
    all_goals first
      | exact envelopeSound_err _ _
      | exact envelopeSound_ok _ _
  · exact envelopeSound_ok now (nodes.map processNameNode)
  · simp only [pnr_status_logic]
    repeat' split
    all_goals first
      | exact envelopeSound_err _ _
      | exact envelopeSound_ok _ _

/-- C10: the fixed-width slicing in live_station_logic is total: a name text
shorter than 5 characters becomes the whole train_no with an empty
train_name, and a status-cell text shorter than 5 characters becomes the
whole time_at with an empty detail. -/
theorem c10_live_station_slicing (now : Nat) (nodes : List NameNode) (n : NameNode) :
    (live_station_logic now nodes).data = EnvData.ok (nodes.map processNameNode) ∧
    (n.text.length < 5 →
      (processNameNode n).train_no = n.text ∧ (processNameNode n).train_name = []) ∧
    (∀ st, n.statusText = some st → st.length < 5 →
      (processNameNode n).time_at = st ∧ (processNameNode n).detail = []) := by
  refine ⟨rfl, ?_, ?_⟩
  · intro hlen
    refine ⟨List.take_of_length_le (Nat.le_of_lt hlen), ?_⟩
    show pyStrip (n.text.drop 5) = []
    rw [List.drop_eq_nil_of_le (Nat.le_of_lt hlen)]
    rfl
  · intro st hst hlen
    have h1 : (processNameNode n).time_at = st.take 5 := by
      simp only [processNameNode, hst]
    have h2 : (processNameNode n).detail = pyStrip (st.drop 5) := by
      simp only [processNameNode, hst]
    rw [h1, h2, List.take_of_length_le (Nat.le_of_lt hlen),
      List.drop_eq_nil_of_le (Nat.le_of_lt hlen)]
    exact ⟨rfl, rfl⟩

theorem c10_live_station_slicing_witness :
    (processNameNode ⟨"AB".data, none, some "XY".data⟩).train_no = "AB".data ∧
    (processNameNode ⟨"AB".data, none, some "XY".data⟩).train_name = [] ∧
    (processNameNode ⟨"AB".data, none, some "XY".data⟩).time_at = "XY".data ∧
    (processNameNode ⟨"AB".data, none, some "XY".data⟩).detail = [] := by
  have h := c10_live_station_slicing 0 [] ⟨"AB".data, none, some "XY".data⟩
  have h2 := h.2.1 (by decide)
  have h3 := h.2.2 ("XY".data) rfl (by decide)
  exact ⟨h2.1, h2.2, h3.1, h3.2⟩

theorem c1_error_sentinels_witness :
    between_station_logic 0 errTryAgain =
      ⟨false, 0, EnvData.err "Please try again after some time.".data⟩ ∧
    check_train_logic 0 errTrainNotFound =
      ⟨false, 0, EnvData.err "Train not found".data⟩ := by
  have h1 := (c1_error_sentinels 0 errTryAgain []).1 (Or.inl (by decide))
  have h2 := (c1_error_sentinels 0 [] errTrainNotFound).2 (Or.inr (by decide))
  constructor
  · rw [h1]; decide
  · rw [h2]; decide



/-- C5: on every valid calendar date the day-index calculator returns the
Monday-as-0 weekday shifted by 5 modulo 7 (so Wednesday maps to 0 and
Tuesday to 6); the first of January 2024, a Monday, yields 5 and the third,
a Wednesday, yields 0; an invalid date such as 31 February 2024 yields -1;
and the result is always -1 or between 0 and 6. -/
theorem c5_day_index (d m y : Int) :
    (validDate d m y = true →
      get_day_on_date_logic d m y =
        ((weekdayMon0 d.toNat m.toNat y.toNat + 5) % 7 : Nat)) ∧
    weekdayMon0 1 1 2024 = 0 ∧
    weekdayMon0 3 1 2024 = 2 ∧
    get_day_on_date_logic 1 1 2024 = 5 ∧
    get_day_on_date_logic 3 1 2024 = 0 ∧
    get_day_on_date_logic 31 2 2024 = -1 ∧
    (get_day_on_date_logic d m y = -1 ∨
      (0 ≤ get_day_on_date_logic d m y ∧ get_day_on_date_logic d m y ≤ 6)) := by
  refine ⟨?_, by decide, by decide, by decide, by decide, by decide, ?_⟩
  · intro h
    simp [get_day_on_date_logic, h]
  · by_cases h : validDate d m y = true
    · right
      simp only [get_day_on_date_logic, if_pos h]
      have h7 : (weekdayMon0 d.toNat m.toNat y.toNat + 5) % 7 < 7 :=
        Nat.mod_lt _ (by omega)
      omega
    · left
      simp [get_day_on_date_logic, h]

theorem c5_day_index_witness :
    get_day_on_date_logic 5 6 2025 =
      ((weekdayMon0 (5 : Int).toNat (6 : Int).toNat (2025 : Int).toNat + 5) % 7 : Nat) :=
  (c5_day_index 5 6 2025).1 (by decide)

/-- C6: get_route_logic splits on the tilde-caret marker with empty segments
dropped, failing when none remain; a segment is kept exactly when more than
9 non-empty tilde fields remain, with fields 1, 2, 3, 4, 6, 7 and 9 mapped
to source_stn_code, source_stn_name, arrive, depart, distance, day and
zone; if segments exist but all are skipped the result is a failure, and a
success carries exactly the kept stops in input order. -/
theorem c6_route_decoder (now : Nat) (s : Str) :
    (dropEmpty (pySplit caretSep s) = [] →
      get_route_logic now s = ⟨false, now, EnvData.err msgNoRouteData⟩) ∧
    (∀ seg, (parseRouteSegment seg).isSome = true ↔
      9 < (dropEmpty (pySplit tildeSep seg)).length) ∧
    (∀ seg st, parseRouteSegment seg = some st →
      st = (let d := dropEmpty (pySplit tildeSep seg)
            ⟨d.getD 2 [], d.getD 1 [], d.getD 3 [], d.getD 4 [], d.getD 6 [],
              d.getD 7 [], d.getD 9 []⟩)) ∧
    (dropEmpty (pySplit caretSep s) ≠ [] →
      (dropEmpty (pySplit caretSep s)).filterMap parseRouteSegment = [] →
      get_route_logic now s = ⟨false, now, EnvData.err msgRouteParseFail⟩) ∧
    (∀ arr, (get_route_logic now s).data = EnvData.ok arr →
      arr = (dropEmpty (pySplit caretSep s)).filterMap parseRouteSegment) := by
  refine ⟨?_, ?_, ?_, ?_, ?_⟩
  · intro h
    simp only [get_route_logic]
    rw [if_pos h]
  · intro seg
    constructor
    · intro hs
      simp only [parseRouteSegment] at hs
      split at hs
      · rename_i hp
        exact hp
      · simp at hs
    · intro hp
      simp only [parseRouteSegment]
      rw [if_pos hp]
      rfl
  · intro seg st h
    simp only [parseRouteSegment] at h
    split at h
    · rw [Option.some.injEq] at h
      exact h.symm
    · exact absurd h (by simp)
  · intro h1 h2
    simp only [get_route_logic]
    rw [if_neg h1, if_pos h2]
  · intro arr h
    simp only [get_route_logic] at h
    split at h
    · simp at h
    split at h
    · simp at h
    · simp only [EnvData.ok.injEq] at h
      exact h.symm

theorem c6_route_decoder_witness :
    get_route_logic 0 [] = ⟨false, 0, EnvData.err msgNoRouteData⟩ ∧
    ((parseRouteSegment "a~f1~f2~f3~f4~f5~f6~f7~f8~f9".data).isSome = true) ∧
    get_route_logic 0 "~^a~b".data = ⟨false, 0, EnvData.err msgRouteParseFail⟩ ∧
    [(⟨"f2".data, "f1".data, "f3".data, "f4".data, "f6".data, "f7".data, "f9".data⟩ : RouteStop)] =
      (dropEmpty (pySplit caretSep "a~f1~f2~f3~f4~f5~f6~f7~f8~f9".data)).filterMap
        parseRouteSegment := by
  have h0 := c6_route_decoder 0 []
  have h1 := c6_route_decoder 0 ("~^a~b".data)
  have h2 := c6_route_decoder 0 ("a~f1~f2~f3~f4~f5~f6~f7~f8~f9".data)
  refine ⟨h0.1 (by decide), (h2.2.1 ("a~f1~f2~f3~f4~f5~f6~f7~f8~f9".data)).mpr (by decide),
    h1.2.2.2.1 (by decide) (by decide), h2.2.2.2.2 _ (by decide)⟩

/-- C7: pnr_status_logic fails with the could-not-find message when the
embedded data assignment pattern has no match, fails with the distinct
failed-to-parse message when the captured body is not valid JSON, and
returns the parsed value verbatim on success. -/
theorem c7_pnr_extraction (now : Nat) (h : Str) :
    (findDataMatch h = none →
      pnr_status_logic now h = ⟨false, now, EnvData.err msgPnrNotFound⟩) ∧
    (∀ b, findDataMatch h = some b → jsonParse b = none →
      pnr_status_logic now h = ⟨false, now, EnvData.err msgPnrParseFail⟩) ∧
    (∀ b v, findDataMatch h = some b → jsonParse b = some v →
      pnr_status_logic now h = ⟨true, now, EnvData.ok v⟩) ∧
    msgPnrNotFound ≠ msgPnrParseFail := by
  refine ⟨?_, ?_, ?_, by decide⟩
  · intro hm
    simp [pnr_status_logic, hm]
  · intro b hm hp
    simp [pnr_status_logic, hm, hp]
  · intro b v hm hp
    simp [pnr_status_logic, hm, hp]

theorem c7_pnr_extraction_witness :
    pnr_status_logic 0 pnrHtmlNone = ⟨false, 0, EnvData.err msgPnrNotFound⟩ ∧
    pnr_status_logic 0 pnrHtmlBad = ⟨false, 0, EnvData.err msgPnrParseFail⟩ ∧
    pnr_status_logic 0 pnrHtmlOk =
      ⟨true, 0, EnvData.ok (JVal.jobj [("a".data, JVal.jnum ['1'])])⟩ := by
  refine ⟨(c7_pnr_extraction 0 pnrHtmlNone).1 rfl,
    (c7_pnr_extraction 0 pnrHtmlBad).2.1 ([lbrace] ++ "oops".data ++ [rbrace]) rfl rfl,
    (c7_pnr_extraction 0 pnrHtmlOk).2.2.1 ([lbrace] ++ "\"a\":1".data ++ [rbrace])
      (JVal.jobj [("a".data, JVal.jnum ['1'])]) rfl rfl⟩

set_option maxRecDepth 8000 in
/-- C4 counterexample: on `c4input` the decoder succeeds, and the produced
train_no is the first field with every caret removed, which differs from the
first field with only a leading caret stripped — the claim's mapping of
field 0 is false at this input. -/
theorem c4_counterexample :
    (check_train_logic 0 c4input).data = EnvData.ok c4detail ∧
    c4detail.train_no ≠
      stripLeadingCaret
        ((ctRepair (dropEmpty (pySplit tildeSep
          ((pySplit sentinel8 c4input).getD 0 [])))).getD 0 []) :=
  ⟨by decide, by decide⟩

/-- C4 (amended): the heuristic repair drops the first field exactly when
the second field exists and is longer than 6 characters and the first field
is a lone caret, or longer than 6 characters and not purely numeric; after
the repair the decoder fails unless at least 15 fields remain, and a
successful decode maps field 0 to train_no with every caret character
removed (not only a leading one), field 1 to train_name, fields 2 to 5 to
the station fields and fields 10 to 12 to the time fields. -/
theorem c4_detail_repair_and_mapping (now : Nat) (s : Str) (a : List Str) :
    ((a.length > 1 ∧ (a.getD 1 []).length > 6) →
      (ctRepair a = a.drop 1 ↔
        (a.getD 0 [] = ['^'] ∨
          ((a.getD 0 []).length > 6 ∧ pyIsDigit (a.getD 0 []) = false)))) ∧
    (¬(a.length > 1 ∧ (a.getD 1 []).length > 6) → ctRepair a = a) ∧
    ((ctRepair (dropEmpty (pySplit tildeSep ((pySplit sentinel8 s).getD 0 [])))).length < 15 →
      (check_train_logic now s).success = false) ∧
    (∀ d, (check_train_logic now s).data = EnvData.ok d →
      d = (let p1 := ctRepair (dropEmpty (pySplit tildeSep ((pySplit sentinel8 s).getD 0 [])))
           let p2 := dropEmpty (pySplit tildeSep ((pySplit sentinel8 s).getD 1 []))
           ⟨removeCarets (p1.getD 0 []), p1.getD 1 [], p1.getD 2 [], p1.getD 3 [],
             p1.getD 4 [], p1.getD 5 [], p1.getD 10 [], p1.getD 11 [], p1.getD 12 [],
             p1.getD 13 [], parseRunningDaysList (p1.getD 13 []),
             p2.getD 11 [], p2.getD 12 [], p2.getD 18 [], p2.getD 19 []⟩)) := by
  refine ⟨?_, ?_, ?_, ?_⟩
  · intro hc
    have hne : a ≠ [] := by
      intro he
      rw [he] at hc
      simp at hc
    have hdrop : a.drop 1 ≠ a := by
      intro he
      have hlen := congrArg List.length he
      rw [List.length_drop] at hlen
      omega
    simp only [ctRepair]
    rw [if_pos (⟨hne, hc.1, hc.2⟩ : a ≠ [] ∧ a.length > 1 ∧ (a.getD 1 []).length > 6)]
    by_cases h0 : a.getD 0 [] = ['^']
    · rw [if_pos h0]
      exact ⟨fun _ => Or.inl h0, fun _ => rfl⟩
    · rw [if_neg h0]
      by_cases h1 : (a.getD 0 []).length > 6 ∧ a.length > 1 ∧ pyIsDigit (a.getD 0 []) = false
      · rw [if_pos h1]
        exact ⟨fun _ => Or.inr ⟨h1.1, h1.2.2⟩, fun _ => rfl⟩
      · rw [if_neg h1]
        constructor
        · intro he
          exact absurd he.symm hdrop
        · rintro (h | h)
          · exact absurd h h0
          · exact absurd ⟨h.1, hc.1, h.2⟩ h1
  · intro hc
    simp only [ctRepair]
    rw [if_neg]
    intro hfull
    exact hc ⟨hfull.2.1, hfull.2.2⟩
  · intro hlt
    simp only [check_train_logic]
    by_cases h1 : isCheckTrainErr ((pySplit sentinel8 s).headD []) = true
    · rw [if_pos h1]
    · rw [if_neg h1]
      by_cases h2 : (pySplit sentinel8 s).length < 2
      · rw [if_pos h2]
      · rw [if_neg h2, if_pos hlt]
  · intro d h
    simp only [check_train_logic] at h
    split at h
    · simp at h
    split at h
    · simp at h
    split at h
    · simp at h
    split at h
    · simp at h
    · simp only [EnvData.ok.injEq] at h
      exact h.symm

set_option maxRecDepth 8000 in
theorem c4_detail_repair_and_mapping_witness :
    ctRepair [['^'], "1234567".data] = [['^'], "1234567".data].drop 1 ∧
    ctRepair [['x']] = [['x']] ∧
    (check_train_logic 0 []).success = false ∧
    c4detail =
      (let p1 := ctRepair (dropEmpty (pySplit tildeSep ((pySplit sentinel8 c4input).getD 0 [])))
       let p2 := dropEmpty (pySplit tildeSep ((pySplit sentinel8 c4input).getD 1 []))
       ⟨removeCarets (p1.getD 0 []), p1.getD 1 [], p1.getD 2 [], p1.getD 3 [],
         p1.getD 4 [], p1.getD 5 [], p1.getD 10 [], p1.getD 11 [], p1.getD 12 [],
         p1.getD 13 [], parseRunningDaysList (p1.getD 13 []),
         p2.getD 11 [], p2.getD 12 [], p2.getD 18 [], p2.getD 19 []⟩) := by
  refine ⟨((c4_detail_repair_and_mapping 0 [] [['^'], "1234567".data]).1
      (by decide)).mpr (Or.inl (by decide)),
    (c4_detail_repair_and_mapping 0 [] [['x']]).2.1 (by decide),
    (c4_detail_repair_and_mapping 0 [] []).2.2.1 (by decide),
    (c4_detail_repair_and_mapping 0 c4input []).2.2.2 c4detail (by decide)⟩
